import Mathlib

/-!
Verification of the `async_timers` repository (src/async_timers.hpp, src/cpp_timers.h).

The repository contains three near-duplicate timer variants:

* the restart-aware `async_timers::instance` (first copy in src/async_timers.hpp):
  `start` with a compare-exchange on `is_running`, a restart path that waits on
  `finished_waiting_for_stop`, and a wait-and-invoke loop;
* the stopped-flag `async_timers::instance` (second copy in src/async_timers.hpp):
  `start_one_shot` / `start_periodic` guarded by an atomic `stopped`;
* `Cpp_Timers` (src/cpp_timers.h): `start_one_shot` / `start_periodic` with a
  `stop_flag` that only the periodic loop reads, and a `clock` whose
  `wait_until` has no predicate.

The sequential behaviour of each run is embedded as executable functions over
discrete time (`Nat`).  A stop request issued from another thread is modelled
by its time `tstop : Option Nat`: the corresponding flag is considered set from
that instant on (the flags are monotone one-way switches during a run).
Spurious or notified wakeups of a condition-variable wait are modelled by an
explicit list of wakeup times.  The restart coordinator, which is genuinely
concurrent, is embedded as an interleaving small-step transition system.
-/

namespace AsyncTimers

/-- Value of the stop-style flag at time `u`, when the (unique) stop request of
the run happens at time `tstop` (`none` when no stop is ever requested).
Models the monotone flag writes `stopped = true` / `is_running.store(false)`. -/
def stoppedAt : Option Nat → Nat → Bool
  | none, _ => false
  | some ts, u => decide (ts ≤ u)

/-- Value of `is_running` at time `u` for a run started with `is_running = true`
whose only clearing write (stop or restart) happens at `tstop`. -/
def isRunningAt (tstop : Option Nat) (u : Nat) : Bool :=
  ! stoppedAt tstop u

/-- Return time of `cv.wait_until(lock, entry + duration, pred)`: the predicate
is checked at entry, then at every wakeup time in `wakeups` that falls inside
the wait window, and the wait otherwise ends at the deadline.  It returns at
the first instant among these where the predicate holds, else at the deadline.
This mirrors the C++ semantics `while (!pred()) if (wait_until(t) == timeout)
return pred();`. -/
def waitUntilRet (entry deadline : Nat) (pred : Nat → Bool) (wakeups : List Nat) : Nat :=
  if pred entry then entry
  else
    match wakeups.find? (fun w => decide (entry ≤ w) && decide (w < deadline) && pred w) with
    | some w => w
    | none => deadline

/-- Return time of `cv.wait_until(lock, entry + duration)` with no predicate:
the wait ends at the first wakeup (spurious or notified) inside the window, or
at the deadline.  Models src/cpp_timers.h line 99. -/
def waitUntilNoPred (entry deadline : Nat) (wakeups : List Nat) : Nat :=
  match wakeups.find? (fun w => decide (entry ≤ w) && decide (w < deadline)) with
  | some w => w
  | none => deadline

/-- Return time of `async_timers::instance::clock` (restart-aware variant,
src/async_timers.hpp lines 128-144): `wait_until(lock, now + duration, [this]{
return is_running.load() ? false : true; })`; on return it sets
`finished_waiting_for_clock = true` and notifies the loop. -/
def clockA (t dur : Nat) (tstop : Option Nat) (wakeups : List Nat) : Nat :=
  waitUntilRet t (t + dur) (fun u => if isRunningAt tstop u then false else true) wakeups

/-- Return time of the stopped-flag variant's `clock` (src/async_timers.hpp
lines 253-265): `wait_until(lock, now + duration, [this]{ return stopped ?
true : false; })`; on return it sets `is_elapsed = true`. -/
def clockB (t dur : Nat) (tstop : Option Nat) (wakeups : List Nat) : Nat :=
  waitUntilRet t (t + dur) (fun u => if stoppedAt tstop u then true else false) wakeups

/-- Return time of `Cpp_Timers::clock` (src/cpp_timers.h lines 94-103):
`wait_until(lock, now + duration)` with NO predicate; on return it sets
`is_elapsed = true` unconditionally. -/
def clockCpp (t dur : Nat) (wakeups : List Nat) : Nat :=
  waitUntilNoPred t (t + dur) wakeups

/-- The wait-and-invoke loop of the restart-aware `start`
(src/async_timers.hpp lines 79-112), one run, sequentially:
`last` models `last_return_of_callable` (line 79, started at `default`),
`count` counts invocations of the callback `f` (fed the invocation index),
`wk` gives the wakeup times available to each iteration's clock wait, and
`t` is the iteration's entry time.  Each iteration is: check
`is_running` (line 80), `clock(duration)` (line 82), the inner wait on
`finished_waiting_for_clock` (lines 84-88, instantaneous once the clock
returned), re-check `is_running` and break without invoking (lines 90-97),
invoke (line 98), break if single shot (lines 99-106).  On exit the value of
`last_return_of_callable` is returned (line 112).  `fuel` bounds the number of
iterations so the function is total; an exhausted-fuel run exits like a
stopped one. -/
def loopA {ρ : Type} (fuel t dur : Nat) (tstop : Option Nat)
    (wk : Nat → List Nat) (f : Nat → ρ) (shot : Bool) (last : ρ) (count : Nat) : ρ × Nat :=
  match fuel with
  | 0 => (last, count)
  | fuel + 1 =>
    if isRunningAt tstop t then
      let r := clockA t dur tstop (wk count)
      if isRunningAt tstop r then
        let v := f count
        if shot then (v, count + 1)
        else loopA fuel r dur tstop wk f shot v (count + 1)
      else (last, count)
    else (last, count)

/-- A full run of the restart-aware loop: `last_return_of_callable` starts as a
default-initialized value of the callback's result type (src/async_timers.hpp
line 79) and zero invocations have happened.  Returns (future value,
number of invocations). -/
def runA {ρ : Type} [Inhabited ρ] (fuel t dur : Nat) (tstop : Option Nat)
    (wk : Nat → List Nat) (f : Nat → ρ) (shot : Bool) : ρ × Nat :=
  loopA fuel t dur tstop wk f shot default 0

/-- Observable exit state of one run of the restart-aware loop when the
callback may throw (modelled by `Except`): the value delivered through the
future, the value of `finished_waiting_for_stop` after the run, the value of
`is_running` as left by the loop itself, and the invocation count. -/
structure AFin (ε ρ : Type) where
  result : Except ε ρ
  finished_waiting_for_stop : Bool
  is_running : Bool
  invocations : Nat

/-- The restart-aware loop with a throwing callback (`f` returns
`Except ε ρ`).  The termination bookkeeping of src/async_timers.hpp lines
108-111 (`finished_waiting_for_stop = true; running_cond.notify_one();
is_running.store(false);`) sits after the `while` loop with no catch block and
no scope guard, so it executes exactly on the normal exit paths; when
`std::invoke(f, ...)` (line 98) throws, the exception propagates out of the
lambda into the future and the bookkeeping lines never run:
`finished_waiting_for_stop` keeps its value `false` and `is_running` keeps the
value `true` it had when the invocation began. -/
def loopAE {ε ρ : Type} (fuel t dur : Nat) (tstop : Option Nat)
    (wk : Nat → List Nat) (f : Nat → Except ε ρ) (shot : Bool) (last : ρ) (count : Nat) :
    AFin ε ρ :=
  match fuel with
  | 0 => ⟨.ok last, true, false, count⟩
  | fuel + 1 =>
    if isRunningAt tstop t then
      let r := clockA t dur tstop (wk count)
      if isRunningAt tstop r then
        match f count with
        | .error e => ⟨.error e, false, true, count⟩
        | .ok v =>
          if shot then ⟨.ok v, true, false, count + 1⟩
          else loopAE fuel r dur tstop wk f shot v (count + 1)
      else ⟨.ok last, true, false, count⟩
    else ⟨.ok last, true, false, count⟩

/-- Full run of the restart-aware loop with a possibly-throwing callback. -/
def runAE {ε ρ : Type} [Inhabited ρ] (fuel t dur : Nat) (tstop : Option Nat)
    (wk : Nat → List Nat) (f : Nat → Except ε ρ) (shot : Bool) : AFin ε ρ :=
  loopAE fuel t dur tstop wk f shot default 0

/-- The restart-aware clock with the duration taken as a signed quantity, as
`start` accepts any `std::chrono::duration`: `start` performs no validation of
the duration (src/async_timers.hpp lines 48-73 have no branch on it), and
`wait_until` against the already-past timepoint `now + duration` returns
immediately when the duration is non-positive. -/
def clockAI (t : Nat) (d : Int) (tstop : Option Nat) (wakeups : List Nat) : Nat :=
  if d ≤ 0 then t
  else waitUntilRet t (t + d.toNat) (fun u => if isRunningAt tstop u then false else true) wakeups

/-- The restart-aware loop with a signed duration, mirroring `loopA` with
`clockAI` in place of `clockA`. -/
def loopAI {ρ : Type} (fuel t : Nat) (d : Int) (tstop : Option Nat)
    (wk : Nat → List Nat) (f : Nat → ρ) (shot : Bool) (last : ρ) (count : Nat) : ρ × Nat :=
  match fuel with
  | 0 => (last, count)
  | fuel + 1 =>
    if isRunningAt tstop t then
      let r := clockAI t d tstop (wk count)
      if isRunningAt tstop r then
        let v := f count
        if shot then (v, count + 1)
        else loopAI fuel r d tstop wk f shot v (count + 1)
      else (last, count)
    else (last, count)

/-- Full run of the restart-aware loop with a signed duration. -/
def runAI {ρ : Type} [Inhabited ρ] (fuel t : Nat) (d : Int) (tstop : Option Nat)
    (wk : Nat → List Nat) (f : Nat → ρ) (shot : Bool) : ρ × Nat :=
  loopAI fuel t d tstop wk f shot default 0

/-- One run of the stopped-flag variant's `start_one_shot`
(src/async_timers.hpp lines 201-223): `stopped = false` at launch, so `tstop`
is the time of a stop issued after this launch, if any; the task runs
`clock(duration)`, waits for `is_elapsed` (instantaneous once the clock
returned, at time `r`), then `if (stopped) return R{};` (modelled as
`(default, false)`, the second component recording whether the callback was
invoked) else `return std::invoke(f, args...)` (modelled `(f (), true)`). -/
def oneShotB {ρ : Type} [Inhabited ρ] (t dur : Nat) (tstop : Option Nat)
    (wakeups : List Nat) (f : Unit → ρ) : ρ × Bool :=
  let r := clockB t dur tstop wakeups
  if stoppedAt tstop r then (default, false) else (f (), true)

/-- The loop body of the stopped-flag variant's `start_periodic`
(src/async_timers.hpp lines 229-244): `while (!stopped) { clock(duration);
wait for is_elapsed; last_return_of_callable = std::invoke(f, args...); }`.
Note there is NO re-check of `stopped` between the wait and the invocation:
an iteration whose wait was cut short by a stop still invokes the callback,
and only the next loop-condition check observes the stop. -/
def loopB {ρ : Type} (fuel t dur : Nat) (tstop : Option Nat)
    (wk : Nat → List Nat) (f : Nat → ρ) (last : ρ) (count : Nat) : ρ × Nat :=
  match fuel with
  | 0 => (last, count)
  | fuel + 1 =>
    if stoppedAt tstop t then (last, count)
    else
      let r := clockB t dur tstop (wk count)
      let v := f count
      loopB fuel r dur tstop wk f v (count + 1)

/-- Full run of the stopped-flag periodic loop: `last_return_of_callable`
starts default-initialized (src/async_timers.hpp line 231). -/
def runPeriodicB {ρ : Type} [Inhabited ρ] (fuel t dur : Nat) (tstop : Option Nat)
    (wk : Nat → List Nat) (f : Nat → ρ) : ρ × Nat :=
  loopB fuel t dur tstop wk f default 0

/-- One run of `Cpp_Timers::start_one_shot` (src/cpp_timers.h lines 45-63):
the task runs `clock(duration)`, waits for `is_elapsed`, then unconditionally
`return std::invoke(f, args...)`.  No stop request is consulted anywhere on
this path (the `tstop` argument records when `stop_periodic()` was called, and
is deliberately unused, exactly as `stop_flag` is unread by this code path). -/
def oneShotCpp {ρ : Type} (t dur : Nat) (tstop : Option Nat)
    (wakeups : List Nat) (f : Unit → ρ) : ρ × Bool :=
  let _r := clockCpp t dur wakeups
  let _ := tstop
  (f (), true)

/-- Flag state of the restart-aware `async_timers::instance`
(src/async_timers.hpp lines 145-149). -/
structure AState where
  is_running : Bool
  is_single_shot : Bool
  finished_waiting_for_clock : Bool
  finished_waiting_for_stop : Bool
deriving DecidableEq, Repr

/-- `async_timers::instance::stop` (restart-aware variant, src/async_timers.hpp
lines 115-118): `is_running.store(false);`. -/
def stopA (s : AState) : AState :=
  { s with is_running := false }

/-- Flag state of the stopped-flag `async_timers::instance`
(src/async_timers.hpp lines 266-270). -/
structure BState where
  stopped : Bool
  is_elapsed : Bool
deriving DecidableEq, Repr

/-- The stopped-flag variant's `stop` (src/async_timers.hpp lines 248-251):
`stopped = true;`. -/
def stopB (s : BState) : BState :=
  { s with stopped := true }

/-- The flag reset `stopped = false;` performed first by both `start_one_shot`
(src/async_timers.hpp line 205) and `start_periodic` (line 228) before the
background task is launched. -/
def launchB (s : BState) : BState :=
  { s with stopped := false }

/-- Flag state of `Cpp_Timers` (src/cpp_timers.h lines 104-108). -/
structure CppState where
  stop_flag : Bool
  is_elapsed : Bool
deriving DecidableEq, Repr

/-- `Cpp_Timers::stop_periodic` (src/cpp_timers.h lines 89-92):
`stop_flag = false;` (the flag is running-while-true in this variant). -/
def stopCpp (s : CppState) : CppState :=
  { s with stop_flag := false }

/-- The `stop_flag = true;` write at the entry of `Cpp_Timers::start_periodic`
(src/cpp_timers.h line 71), executed before the first iteration. -/
def cppPeriodicEntry (s : CppState) : CppState :=
  { s with stop_flag := true }

/-- `start_one_shot` of the stopped-flag variant as a state transformer plus
run: resets `stopped` (line 205) and launches the one-shot task. -/
def startOneShotB {ρ : Type} [Inhabited ρ] (s : BState) (t dur : Nat) (tstop : Option Nat)
    (wakeups : List Nat) (f : Unit → ρ) : BState × (ρ × Bool) :=
  (launchB s, oneShotB t dur tstop wakeups f)

/-- `start_periodic` of the stopped-flag variant as a state transformer plus
run: resets `stopped` (line 228) and launches the periodic task. -/
def startPeriodicB {ρ : Type} [Inhabited ρ] (s : BState) (fuel t dur : Nat)
    (tstop : Option Nat) (wk : Nat → List Nat) (f : Nat → ρ) : BState × (ρ × Nat) :=
  (launchB s, runPeriodicB fuel t dur tstop wk f)

/-- Program counter of a restarting caller inside
`async_timers::instance::start` after its compare-exchange on `is_running`
failed (src/async_timers.hpp lines 52-73): the statements it still has to
execute, in order, are `is_running.store(false)` (line 59),
`finished_waiting_for_stop = false` (line 60, NOT under the mutex), the
condition wait for `finished_waiting_for_stop` (lines 61-65, re-checked under
`running_cond_mutex`), `is_running.store(true)` (line 70),
`finished_waiting_for_clock = false` (line 72), and the `std::async` launch of
the new loop (line 73). -/
inductive RPc
  | atStoreFalse
  | atClearFlag
  | atWaitStop
  | atStoreTrue
  | atClearClock
  | atLaunch
  | done
deriving DecidableEq, Repr

/-- Program counter of the in-flight wait-and-invoke loop
(src/async_timers.hpp lines 80-112): the `while (is_running.load())` check
(line 80), the `clock(duration)` call (line 82), the inner wait on
`finished_waiting_for_clock` (lines 84-88), the `if (!is_running.load())`
re-check (line 90), the invocation (line 98), the single-shot check (line 99),
the termination block (lines 108-111, executed atomically as one step since
the whole block holds `running_cond_mutex` via `lock_guard`), and the final
`return` (loop gone). -/
inductive LPc
  | atCheck
  | atClock
  | atWaitClock
  | atRecheck
  | atInvoke
  | atShotCheck
  | atTermBlock
  | gone
deriving DecidableEq, Repr

/-- Joint state of one restarting `start()` call interleaved with the
in-flight loop of the restart-aware `async_timers::instance`. -/
structure CSt where
  rpc : RPc
  lpc : LPc
  is_running : Bool
  finished_waiting_for_stop : Bool
  finished_waiting_for_clock : Bool
  is_single_shot : Bool
  newLoopLaunched : Bool
deriving DecidableEq, Repr

/-- Interleaving small-step relation for the restart coordinator of
src/async_timers.hpp.  Each constructor is one atomic action of either the
restarting caller (the `r` steps, lines 59-73) or the in-flight loop (the `l`
steps, lines 80-112).  The condition wait of the caller (`rWaitStop`) can only
fire once `finished_waiting_for_stop` is true, and the loop's termination
block (`lTermBlock`) publishes `finished_waiting_for_stop = true` and clears
`is_running` in one step, because lines 108-111 all execute under
`running_cond_mutex`, the same mutex the caller's wait re-acquires before
re-checking its predicate. -/
inductive Step : CSt → CSt → Prop
  | rStoreFalse (s : CSt) (h : s.rpc = RPc.atStoreFalse) :
      Step s { s with rpc := RPc.atClearFlag, is_running := false }
  | rClearFlag (s : CSt) (h : s.rpc = RPc.atClearFlag) :
      Step s { s with rpc := RPc.atWaitStop, finished_waiting_for_stop := false }
  | rWaitStop (s : CSt) (h : s.rpc = RPc.atWaitStop)
      (hf : s.finished_waiting_for_stop = true) :
      Step s { s with rpc := RPc.atStoreTrue }
  | rStoreTrue (s : CSt) (h : s.rpc = RPc.atStoreTrue) :
      Step s { s with rpc := RPc.atClearClock, is_running := true }
  | rClearClock (s : CSt) (h : s.rpc = RPc.atClearClock) :
      Step s { s with rpc := RPc.atLaunch, finished_waiting_for_clock := false }
  | rLaunch (s : CSt) (h : s.rpc = RPc.atLaunch) :
      Step s { s with rpc := RPc.done, newLoopLaunched := true }
  | lCheckRun (s : CSt) (h : s.lpc = LPc.atCheck) (hr : s.is_running = true) :
      Step s { s with lpc := LPc.atClock }
  | lCheckStop (s : CSt) (h : s.lpc = LPc.atCheck) (hr : s.is_running = false) :
      Step s { s with lpc := LPc.atTermBlock }
  | lClock (s : CSt) (h : s.lpc = LPc.atClock) :
      Step s { s with lpc := LPc.atWaitClock, finished_waiting_for_clock := true }
  | lWaitClock (s : CSt) (h : s.lpc = LPc.atWaitClock)
      (hc : s.finished_waiting_for_clock = true) :
      Step s { s with lpc := LPc.atRecheck }
  | lRecheckRun (s : CSt) (h : s.lpc = LPc.atRecheck) (hr : s.is_running = true) :
      Step s { s with lpc := LPc.atInvoke }
  | lRecheckStop (s : CSt) (h : s.lpc = LPc.atRecheck) (hr : s.is_running = false) :
      Step s { s with lpc := LPc.atTermBlock }
  | lInvoke (s : CSt) (h : s.lpc = LPc.atInvoke) :
      Step s { s with lpc := LPc.atShotCheck }
  | lShotYes (s : CSt) (h : s.lpc = LPc.atShotCheck) (hs : s.is_single_shot = true) :
      Step s { s with lpc := LPc.atTermBlock }
  | lShotNo (s : CSt) (h : s.lpc = LPc.atShotCheck) (hs : s.is_single_shot = false) :
      Step s { s with lpc := LPc.atCheck }
  | lTermBlock (s : CSt) (h : s.lpc = LPc.atTermBlock) :
      Step s { s with lpc := LPc.gone, finished_waiting_for_stop := true, is_running := false }

/-- Initial states of the restart scenario: the caller's compare-exchange has
just failed (so it is about to execute line 59) and the new loop is not yet
launched; the old loop may be anywhere and the flags may hold any values. -/
def RestartInit (s : CSt) : Prop :=
  s.rpc = RPc.atStoreFalse ∧ s.newLoopLaunched = false

/-- States reachable from a restart-scenario initial state by interleaving. -/
inductive Reach : CSt → Prop
  | init (s : CSt) (h : RestartInit s) : Reach s
  | step (s t : CSt) (hs : Reach s) (h : Step s t) : Reach t

/-- Inductive safety invariant of the restart scenario: the new loop is only
launched once the caller reached its final pc; once the caller's wait has been
passed (pcs after `atWaitStop`) the old loop has executed its termination
block; and while the caller is still waiting, `finished_waiting_for_stop` can
only be true if the old loop has terminated. -/
def SafeInv (s : CSt) : Prop :=
  (s.newLoopLaunched = true → s.rpc = RPc.done) ∧
  (s.rpc = RPc.atWaitStop → s.finished_waiting_for_stop = true → s.lpc = LPc.gone) ∧
  ((s.rpc = RPc.atStoreTrue ∨ s.rpc = RPc.atClearClock ∨ s.rpc = RPc.atLaunch ∨
      s.rpc = RPc.done) → s.lpc = LPc.gone)

/-- A concrete initial state of the restart scenario: the caller's
compare-exchange just failed while the old (single-shot) loop is at its
`while` check with `is_running` still true. -/
def cSt0 : CSt :=
  ⟨RPc.atStoreFalse, LPc.atCheck, true, false, false, true, false⟩

/-- The state at the end of a full restart interleaving started from `cSt0`:
the old loop has executed its termination block and the caller has launched
the new loop. -/
def cSt8 : CSt :=
  ⟨RPc.done, LPc.gone, true, true, false, true, true⟩

/-!  Helper lemmas about the deadline-wait model. -/

theorem waitUntilRet_cases (entry dl : Nat) (pred : Nat → Bool) (wks : List Nat) :
    (waitUntilRet entry dl pred wks = entry ∧ pred entry = true) ∨
    (∃ w, waitUntilRet entry dl pred wks = w ∧ pred w = true ∧ entry ≤ w ∧ w < dl) ∨
    waitUntilRet entry dl pred wks = dl := by
  unfold waitUntilRet
  by_cases hp : pred entry = true
  · exact Or.inl ⟨by simp [hp], hp⟩
  · have hp2 : pred entry = false := by simpa using hp
    cases hfind : wks.find? (fun w => decide (entry ≤ w) && decide (w < dl) && pred w) with
    | none => right; right; simp [hp2, hfind]
    | some w =>
      right; left
      have hw := List.find?_some hfind
      simp only [Bool.and_eq_true, decide_eq_true_eq] at hw
      exact ⟨w, by simp [hp2, hfind], hw.2, hw.1.1, hw.1.2⟩

theorem stoppedAt_clockB (t dur ts : Nat) (wks : List Nat) (h : ts < t + dur) :
    stoppedAt (some ts) (clockB t dur (some ts) wks) = true := by
  unfold clockB
  rcases waitUntilRet_cases t (t + dur)
      (fun u => if stoppedAt (some ts) u then true else false) wks with
    ⟨he, hp⟩ | ⟨w, he, hp, _, _⟩ | he
  · rw [he]
    cases hb : stoppedAt (some ts) t with
    | true => rfl
    | false => simp [hb] at hp
  · rw [he]
    cases hb : stoppedAt (some ts) w with
    | true => rfl
    | false => simp [hb] at hp
  · rw [he]
    simp only [stoppedAt, decide_eq_true_eq]
    omega

theorem clockA_eq_clockB (t dur : Nat) (tstop : Option Nat) (wks : List Nat) :
    clockA t dur tstop wks = clockB t dur tstop wks := by
  unfold clockA clockB
  have hfun : (fun u => if isRunningAt tstop u then false else true)
      = (fun u => if stoppedAt tstop u then true else false) := by
    funext u
    unfold isRunningAt
    cases stoppedAt tstop u <;> simp
  rw [hfun]

theorem clockB_early_stop (t dur : Nat) (tstop : Option Nat) (wks : List Nat)
    (h : clockB t dur tstop wks < t + dur) :
    ∃ ts, tstop = some ts ∧ ts ≤ clockB t dur tstop wks := by
  unfold clockB at h ⊢
  rcases waitUntilRet_cases t (t + dur)
      (fun u => if stoppedAt tstop u then true else false) wks with
    ⟨he, hp⟩ | ⟨w, he, hp, hw1, hw2⟩ | he
  · cases tstop with
    | none => simp [stoppedAt] at hp
    | some ts =>
      refine ⟨ts, rfl, ?_⟩
      rw [he]
      cases hb : stoppedAt (some ts) t with
      | true => simpa [stoppedAt] using hb
      | false => simp [hb] at hp
  · cases tstop with
    | none => simp [stoppedAt] at hp
    | some ts =>
      refine ⟨ts, rfl, ?_⟩
      rw [he]
      cases hb : stoppedAt (some ts) w with
      | true => simpa [stoppedAt] using hb
      | false => simp [hb] at hp
  · rw [he] at h; omega

theorem loopA_stop_early {ρ : Type} (fuel t dur ts : Nat) (wk : Nat → List Nat)
    (f : Nat → ρ) (shot : Bool) (last : ρ) (count : Nat) (h : ts < t + dur) :
    loopA fuel t dur (some ts) wk f shot last count = (last, count) := by
  cases fuel with
  | zero => rfl
  | succ n =>
    unfold loopA
    by_cases hr : isRunningAt (some ts) t = true
    · have hstop : stoppedAt (some ts) (clockA t dur (some ts) (wk count)) = true := by
        rw [clockA_eq_clockB]
        exact stoppedAt_clockB t dur ts (wk count) h
      have hrf : isRunningAt (some ts) (clockA t dur (some ts) (wk count)) = false := by
        unfold isRunningAt; rw [hstop]; rfl
      simp [hr, hrf]
    · simp [hr]

theorem loopA_count_le {ρ : Type} :
    ∀ (fuel t dur : Nat) (tstop : Option Nat) (wk : Nat → List Nat) (f : Nat → ρ)
      (shot : Bool) (last : ρ) (count : Nat),
      count ≤ (loopA fuel t dur tstop wk f shot last count).2 := by
  intro fuel
  induction fuel with
  | zero => intro t dur tstop wk f shot last count; exact Nat.le_refl _
  | succ n ih =>
    intro t dur tstop wk f shot last count
    unfold loopA
    by_cases h1 : isRunningAt tstop t = true
    · by_cases h2 : isRunningAt tstop (clockA t dur tstop (wk count)) = true
      · by_cases h3 : shot = true
        · simp [h1, h2, h3]
        · have h3f : shot = false := by simpa using h3
          subst h3f
          simp [h1, h2]
          exact le_trans (Nat.le_succ count)
            (ih (clockA t dur tstop (wk count)) dur tstop wk f false (f count) (count + 1))
      · simp [h1, h2]
    · simp [h1]

theorem loopB_count_le {ρ : Type} :
    ∀ (fuel t dur : Nat) (tstop : Option Nat) (wk : Nat → List Nat) (f : Nat → ρ)
      (last : ρ) (count : Nat),
      count ≤ (loopB fuel t dur tstop wk f last count).2 := by
  intro fuel
  induction fuel with
  | zero => intro t dur tstop wk f last count; exact Nat.le_refl _
  | succ n ih =>
    intro t dur tstop wk f last count
    unfold loopB
    by_cases hs : stoppedAt tstop t = true
    · simp [hs]
    · simp [hs]
      exact le_trans (Nat.le_succ count)
        (ih (clockB t dur tstop (wk count)) dur tstop wk f (f count) (count + 1))

theorem loopA_result_of_count {ρ : Type} :
    ∀ (fuel t dur : Nat) (tstop : Option Nat) (wk : Nat → List Nat) (f : Nat → ρ)
      (shot : Bool) (last : ρ) (count : Nat),
      (loopA fuel t dur tstop wk f shot last count).2 = count →
      (loopA fuel t dur tstop wk f shot last count).1 = last := by
  intro fuel
  induction fuel with
  | zero => intro t dur tstop wk f shot last count _; rfl
  | succ n ih =>
    intro t dur tstop wk f shot last count h
    unfold loopA at h ⊢
    by_cases h1 : isRunningAt tstop t = true
    · by_cases h2 : isRunningAt tstop (clockA t dur tstop (wk count)) = true
      · by_cases h3 : shot = true
        · exfalso; simp [h1, h2, h3] at h
        · exfalso
          have h3f : shot = false := by simpa using h3
          subst h3f
          simp [h1, h2] at h
          have hmono := loopA_count_le n (clockA t dur tstop (wk count)) dur tstop wk f
            false (f count) (count + 1)
          omega
      · simp [h1, h2]
    · simp [h1]

theorem safeInv_init (s : CSt) (h : RestartInit s) : SafeInv s := by
  obtain ⟨h1, h2⟩ := h
  unfold SafeInv
  refine ⟨fun hl => ?_, fun hw _ => ?_, fun hor => ?_⟩
  · rw [h2] at hl; exact absurd hl (by decide)
  · rw [h1] at hw; exact absurd hw (by decide)
  · rcases hor with hq | hq | hq | hq <;> (rw [h1] at hq; exact absurd hq (by decide))

theorem safeInv_step {s t : CSt} (hinv : SafeInv s) (hst : Step s t) : SafeInv t := by
  unfold SafeInv at hinv ⊢
  obtain ⟨h1, h2, h3⟩ := hinv
  cases hst <;>
    refine ⟨fun ha => ?_, fun hb hc => ?_, fun hd => ?_⟩ <;>
    simp_all

theorem reach_safeInv {s : CSt} (h : Reach s) : SafeInv s := by
  induction h with
  | init s h => exact safeInv_init s h
  | step s t hs hst ih => exact safeInv_step ih hst

/-- C1: in the restart-aware `async_timers::instance::start`
(src/async_timers.hpp lines 52-71 and 108-111), a `start()` call that finds a
loop already active first clears `is_running`, then blocks on
`running_cond` until the outgoing loop has set `finished_waiting_for_stop`
in its termination block, and only then stores `is_running = true` and
launches the new loop.  Formally: in every state reachable by interleaving
the restarting caller with the in-flight loop, if the new loop has been
launched then the old wait-and-invoke loop has already executed its
termination block and is gone, so at most one loop is ever active. -/
theorem restart_launches_only_after_old_loop_terminated (s : CSt) (h : Reach s)
    (hl : s.newLoopLaunched = true) : s.lpc = LPc.gone := by
  have hinv := reach_safeInv h
  unfold SafeInv at hinv
  exact hinv.2.2 (Or.inr (Or.inr (Or.inr (hinv.1 hl))))

/-- Witness for C1: a complete concrete interleaving from `cSt0` (restart
requested while the old single-shot loop is at its `while` check) to `cSt8`
(new loop launched); the theorem applies and the old loop is indeed gone. -/
theorem restart_launches_only_after_old_loop_terminated_witness :
    cSt8.lpc = LPc.gone := by
  have h0 : Reach cSt0 := Reach.init cSt0 ⟨rfl, rfl⟩
  have h1 : Reach (⟨RPc.atClearFlag, LPc.atCheck, false, false, false, true, false⟩ : CSt) :=
    Reach.step _ _ h0 (Step.rStoreFalse _ rfl)
  have h2 : Reach (⟨RPc.atWaitStop, LPc.atCheck, false, false, false, true, false⟩ : CSt) :=
    Reach.step _ _ h1 (Step.rClearFlag _ rfl)
  have h3 : Reach (⟨RPc.atWaitStop, LPc.atTermBlock, false, false, false, true, false⟩ : CSt) :=
    Reach.step _ _ h2 (Step.lCheckStop _ rfl rfl)
  have h4 : Reach (⟨RPc.atWaitStop, LPc.gone, false, true, false, true, false⟩ : CSt) :=
    Reach.step _ _ h3 (Step.lTermBlock _ rfl)
  have h5 : Reach (⟨RPc.atStoreTrue, LPc.gone, false, true, false, true, false⟩ : CSt) :=
    Reach.step _ _ h4 (Step.rWaitStop _ rfl rfl)
  have h6 : Reach (⟨RPc.atClearClock, LPc.gone, true, true, false, true, false⟩ : CSt) :=
    Reach.step _ _ h5 (Step.rStoreTrue _ rfl)
  have h7 : Reach (⟨RPc.atLaunch, LPc.gone, true, true, false, true, false⟩ : CSt) :=
    Reach.step _ _ h6 (Step.rClearClock _ rfl)
  have h8 : Reach cSt8 :=
    Reach.step _ _ h7 (Step.rLaunch _ rfl)
  exact restart_launches_only_after_old_loop_terminated cSt8 h8 rfl

/-- C2 counterexample: the claim quotes `Cpp_Timers::start_one_shot`
(src/cpp_timers.h lines 47-63) among its sources, but that variant checks no
stop state at all: with a stop requested at time 10, well before the deadline
`0 + 100`, the callback is invoked anyway.  So "for every one-shot run, a
stop before the deadline means the callback is never invoked" is false on the
code as a whole. -/
theorem cpp_one_shot_ignores_stop :
    (10 : Nat) < 0 + 100 ∧
    (oneShotCpp 0 100 (some 10) [] (fun _ => (7 : Nat))).2 = true :=
  ⟨by decide, rfl⟩

/-- C2 amended: in the stopped-flag `async_timers::instance::start_one_shot`
(src/async_timers.hpp lines 216-220) a stop requested during the wait (before
the deadline) means the callback is never invoked; `Cpp_Timers::start_one_shot`
(src/cpp_timers.h lines 47-63) has no cancellation path and always invokes
the callback. -/
theorem stop_cancels_one_shot :
    (∀ (ρ : Type) [Inhabited ρ] (t dur ts : Nat) (wks : List Nat) (f : Unit → ρ),
        ts < t + dur → (oneShotB t dur (some ts) wks f).2 = false) ∧
    (∀ (ρ : Type) (t dur : Nat) (tstop : Option Nat) (wks : List Nat) (f : Unit → ρ),
        (oneShotCpp t dur tstop wks f).2 = true) := by
  constructor
  · intro ρ _ t dur ts wks f h
    unfold oneShotB
    simp [stoppedAt_clockB t dur ts wks h]
  · intro ρ t dur tstop wks f
    rfl

/-- Witness for C2: a one-shot in the stopped-flag variant with duration 100
and a stop at time 10 does not invoke its callback. -/
theorem stop_cancels_one_shot_witness :
    (oneShotB 0 100 (some 10) [] (fun _ => (7 : Nat))).2 = false :=
  stop_cancels_one_shot.1 Nat 0 100 10 [] (fun _ => (7 : Nat)) (by decide)

/-- C3 counterexample: in the stopped-flag `start_periodic`
(src/async_timers.hpp lines 232-243), quoted by the claim, the iteration whose
wait is cut short by a stop still invokes the callback: with a stop at time 10
and a wakeup at 10, the clock returns at 10 (interrupted, before the 100
deadline) and the run still performs one invocation instead of zero. -/
theorem periodic_stopped_variant_invokes_on_interrupt :
    clockB 0 100 (some 10) [10] < 0 + 100 ∧
    stoppedAt (some 10) (clockB 0 100 (some 10) [10]) = true ∧
    (runPeriodicB 2 0 100 (some 10) (fun _ => [10]) (fun n => n + 1)).2 = 1 :=
  ⟨by decide, by decide, rfl⟩

/-- C3 amended: in the restart-aware loop (src/async_timers.hpp lines 90-97)
an iteration whose wait observes the stop performs no invocation and the run
terminates with the invocation count unchanged; in the stopped-flag
`start_periodic` (lines 232-243) there is no re-check between the wait and the
invocation, so an iteration that was entered always invokes the callback once
more, even when its wait was interrupted by a stop. -/
theorem interrupted_wait_invocation_semantics :
    (∀ (ρ : Type) (fuel t dur ts : Nat) (wk : Nat → List Nat) (f : Nat → ρ)
        (shot : Bool) (last : ρ) (count : Nat), ts < t + dur →
        loopA fuel t dur (some ts) wk f shot last count = (last, count)) ∧
    (∀ (ρ : Type) (fuel t dur ts : Nat) (wk : Nat → List Nat) (f : Nat → ρ)
        (last : ρ) (count : Nat), stoppedAt (some ts) t = false →
        count + 1 ≤ (loopB (fuel + 1) t dur (some ts) wk f last count).2) := by
  constructor
  · intro ρ fuel t dur ts wk f shot last count h
    exact loopA_stop_early fuel t dur ts wk f shot last count h
  · intro ρ fuel t dur ts wk f last count hs
    unfold loopB
    simp [hs]
    exact loopB_count_le fuel (clockB t dur (some ts) (wk count)) dur (some ts) wk f
      (f count) (count + 1)

/-- Witness for C3: with a stop at time 10 and duration 100, the restart-aware
loop performs zero invocations, while an entered stopped-flag periodic
iteration still invokes at least once. -/
theorem interrupted_wait_invocation_semantics_witness :
    loopA 3 0 100 (some 10) (fun _ => []) (fun n : Nat => n + 1) true 0 0 = (0, 0) ∧
    0 + 1 ≤ (loopB (0 + 1) 0 100 (some 10) (fun _ => [10]) (fun n : Nat => n + 1) 0 0).2 :=
  ⟨interrupted_wait_invocation_semantics.1 Nat 3 0 100 10 (fun _ => []) (fun n => n + 1)
      true 0 0 (by decide),
    interrupted_wait_invocation_semantics.2 Nat 0 0 100 10 (fun _ => [10]) (fun n => n + 1)
      0 0 (by decide)⟩

/-- C4 counterexample: `Cpp_Timers::clock` (src/cpp_timers.h lines 94-103),
quoted by the claim, waits with NO predicate, so a spurious wakeup at time 5
ends a 100-unit wait at time 5 — before the deadline and with no stop
requested (this clock consults no stop state at all) — and `is_elapsed` is
then set unconditionally, releasing the loop early. -/
theorem cpp_clock_spurious_early :
    clockCpp 0 100 [5] = 5 ∧ clockCpp 0 100 [5] < 0 + 100 :=
  ⟨rfl, by decide⟩

/-- C4 amended: the predicate-guarded clocks of both `async_timers::instance`
variants (src/async_timers.hpp lines 128-144 and 253-265) never return before
the deadline unless a stop was requested at or before the return instant, for
every spurious-wakeup schedule; `Cpp_Timers::clock` lacks the predicate and
can return early on any spurious wakeup. -/
theorem clock_no_early_elapsed :
    (∀ (t dur : Nat) (tstop : Option Nat) (wks : List Nat),
        clockA t dur tstop wks < t + dur →
        ∃ ts, tstop = some ts ∧ ts ≤ clockA t dur tstop wks) ∧
    (∀ (t dur : Nat) (tstop : Option Nat) (wks : List Nat),
        clockB t dur tstop wks < t + dur →
        ∃ ts, tstop = some ts ∧ ts ≤ clockB t dur tstop wks) := by
  constructor
  · intro t dur tstop wks h
    rw [clockA_eq_clockB] at h ⊢
    exact clockB_early_stop t dur tstop wks h
  · intro t dur tstop wks h
    exact clockB_early_stop t dur tstop wks h

/-- Witness for C4: the restart-aware clock with a stop at 10 and a wakeup at
10 returns early, and the stop request indeed precedes the return. -/
theorem clock_no_early_elapsed_witness :
    ∃ ts, (some 10 : Option Nat) = some ts ∧ ts ≤ clockA 0 100 (some 10) [10] :=
  clock_no_early_elapsed.1 0 100 (some 10) [10] (by decide)

/-- C5: the claim (and the spec) require the termination bookkeeping of
src/async_timers.hpp lines 108-111 to run on every exit path, including a
throwing callback, via scoped cleanup.  The code has no catch block and no
scope guard: when `std::invoke(f, ...)` at line 98 throws, the lambda exits
by exception, `finished_waiting_for_stop` stays false and `is_running` stays
true, so a later `start()` would block forever in its restart wait; on a
normal exit the bookkeeping does run.  This evaluates the model at the
failing input (a single-shot run whose callback throws) and at the
corresponding normal run. -/
theorem throwing_callback_skips_bookkeeping :
    runAE 3 0 5 none (fun _ => []) (fun _ => (Except.error 0 : Except Nat Nat)) true
      = ⟨Except.error 0, false, true, 0⟩ ∧
    runAE 3 0 5 none (fun _ => []) (fun _ => (Except.ok 7 : Except Nat Nat)) true
      = ⟨Except.ok 7, true, false, 1⟩ :=
  ⟨rfl, rfl⟩

/-- C6 counterexample: `start` (src/async_timers.hpp lines 48-73) and
`Cpp_Timers::start_one_shot` (src/cpp_timers.h lines 45-63) perform no
validation of the duration: with duration −1 the run is launched, the
deadline is already past, and the callback is invoked — refuting "rejected
synchronously, no loop started, no callback ever invoked". -/
theorem negative_duration_not_rejected :
    (-1 : Int) < 0 ∧
    (runAI 1 0 (-1) none (fun _ => []) (fun n => n + 1) true).2 = 1 :=
  ⟨by decide, rfl⟩

/-- C6 amended: a negative duration is not rejected; `start` accepts it, the
`wait_until` deadline `now + duration` is already past so the clock returns
immediately at the entry instant, and the callback fires at once (exactly one
invocation for a single-shot run that is never stopped). -/
theorem negative_duration_fires_immediately :
    ∀ (ρ : Type) [Inhabited ρ] (t : Nat) (d : Int) (fuel : Nat) (wk : Nat → List Nat)
      (f : Nat → ρ), d ≤ 0 →
      clockAI t d none (wk 0) = t ∧
      (runAI (fuel + 1) t d none wk f true).2 = 1 := by
  intro ρ _ t d fuel wk f hd
  have hc : clockAI t d none (wk 0) = t := by
    unfold clockAI
    simp [hd]
  refine ⟨hc, ?_⟩
  unfold runAI loopAI
  have h1 : isRunningAt none t = true := rfl
  simp [h1, hc]

/-- Witness for C6: with duration −1 the clock returns at the entry instant 0
and the single-shot run invokes its callback exactly once. -/
theorem negative_duration_fires_immediately_witness :
    clockAI 0 (-1) none ((fun _ => []) 0) = 0 ∧
    (runAI (0 + 1) 0 (-1) none (fun _ => []) (fun n : Nat => n + 2) true).2 = 1 :=
  negative_duration_fires_immediately Nat 0 (-1) 0 (fun _ => []) (fun n => n + 2) (by decide)

/-- C7 counterexample: the cancelled one-shot of the stopped-flag variant
(src/async_timers.hpp lines 216-219) resolves the future to a
default-constructed value of the callback's result type, not to an outcome
distinct from every value an invocation could produce: for a callback
returning 0, the cancelled result (invocation flag false) equals the value
the callback itself produces. -/
theorem cancelled_one_shot_default_collides :
    (oneShotB 0 100 (some 10) [] (fun _ => (0 : Nat))).2 = false ∧
    (oneShotB 0 100 (some 10) [] (fun _ => (0 : Nat))).1 = (fun _ : Unit => (0 : Nat)) () :=
  ⟨rfl, rfl⟩

/-- C7 amended: a one-shot of the stopped-flag variant cancelled before its
deadline resolves the result handle to the default-constructed value of the
result type (`return std::result_of_t<...>{}`), with no invocation — an
ordinary value of the type, indistinguishable from an invocation that
returned the default. -/
theorem cancelled_one_shot_resolves_default :
    ∀ (ρ : Type) [Inhabited ρ] (t dur ts : Nat) (wks : List Nat) (f : Unit → ρ),
      ts < t + dur →
      oneShotB t dur (some ts) wks f = ((default : ρ), false) := by
  intro ρ _ t dur ts wks f h
  unfold oneShotB
  simp [stoppedAt_clockB t dur ts wks h]

/-- Witness for C7: a cancelled one-shot with a callback returning 5 resolves
to the default value 0 with no invocation. -/
theorem cancelled_one_shot_resolves_default_witness :
    oneShotB 0 100 (some 10) [] (fun _ => (5 : Nat)) = (0, false) :=
  cancelled_one_shot_resolves_default Nat 0 100 10 [] (fun _ => (5 : Nat)) (by decide)

/-- C8: `stop` is idempotent in all three variants (it stores a constant into
one flag: src/async_timers.hpp lines 115-118 and 248-251, src/cpp_timers.h
lines 89-92), and a stop on an idle instance is a no-op: in the restart-aware
variant an idle state (`is_running = false`) is left literally unchanged; in
the stopped-flag variant and in `Cpp_Timers` the only touched flag is
overwritten by the next launch (`stopped = false` at lines 205/228,
`stop_flag = true` at cpp_timers.h line 71), so the change is unobservable. -/
theorem stop_idempotent_and_idle_noop :
    (∀ s : AState, stopA (stopA s) = stopA s) ∧
    (∀ s : AState, s.is_running = false → stopA s = s) ∧
    (∀ s : BState, stopB (stopB s) = stopB s) ∧
    (∀ s : BState, launchB (stopB s) = launchB s) ∧
    (∀ s : CppState, stopCpp (stopCpp s) = stopCpp s) ∧
    (∀ s : CppState, cppPeriodicEntry (stopCpp s) = cppPeriodicEntry s) := by
  refine ⟨fun s => rfl, fun s h => ?_, fun s => rfl, fun s => rfl, fun s => rfl, fun s => rfl⟩
  cases s with
  | mk r sh =>
    cases h
    rfl

/-- Witness for C8: stopping an idle restart-aware instance leaves its state
unchanged. -/
theorem stop_idempotent_and_idle_noop_witness :
    stopA ⟨false, true, false, false⟩ = ⟨false, true, false, false⟩ :=
  stop_idempotent_and_idle_noop.2.1 ⟨false, true, false, false⟩ rfl

/-- C9: both `start_one_shot` (src/async_timers.hpp line 205) and
`start_periodic` (line 228) of the stopped-flag variant unconditionally reset
`stopped` to false before launching, so a stop issued before a subsequent
start has no effect on the new run, and every run begins un-stopped. -/
theorem starts_reset_stopped_flag :
    (∀ s : BState, (launchB s).stopped = false) ∧
    (∀ (ρ : Type) [Inhabited ρ] (s : BState) (t dur : Nat) (tstop : Option Nat)
        (wks : List Nat) (f : Unit → ρ),
        startOneShotB (stopB s) t dur tstop wks f = startOneShotB s t dur tstop wks f ∧
        (startOneShotB s t dur tstop wks f).1.stopped = false) ∧
    (∀ (ρ : Type) [Inhabited ρ] (s : BState) (fuel t dur : Nat) (tstop : Option Nat)
        (wk : Nat → List Nat) (f : Nat → ρ),
        startPeriodicB (stopB s) fuel t dur tstop wk f
          = startPeriodicB s fuel t dur tstop wk f ∧
        (startPeriodicB s fuel t dur tstop wk f).1.stopped = false) := by
  refine ⟨fun s => rfl, ?_, ?_⟩
  · intro ρ _ s t dur tstop wks f
    exact ⟨rfl, rfl⟩
  · intro ρ _ s fuel t dur tstop wk f
    exact ⟨rfl, rfl⟩

/-- C10: in the restart-aware `start`, the future's value is
`last_return_of_callable`, default-initialized at loop entry
(src/async_timers.hpp line 79) and returned on every normal exit (line 112):
a run with zero invocations delivers the default value of the callback's
result type (which must therefore be default-constructible), and a run
cancelled during its first wait is indistinguishable through the future from
a run whose single invocation returned the default value. -/
theorem run_default_when_no_invocation :
    (∀ (ρ : Type) [Inhabited ρ] (fuel t dur : Nat) (tstop : Option Nat)
        (wk : Nat → List Nat) (f : Nat → ρ) (shot : Bool),
        (runA fuel t dur tstop wk f shot).2 = 0 →
        (runA fuel t dur tstop wk f shot).1 = (default : ρ)) ∧
    ((runA 1 0 100 (some 0) (fun _ => []) (fun _ => (0 : Nat)) true).1
        = (runA 1 0 100 none (fun _ => []) (fun _ => (0 : Nat)) true).1 ∧
      (runA 1 0 100 (some 0) (fun _ => []) (fun _ => (0 : Nat)) true).2 = 0 ∧
      (runA 1 0 100 none (fun _ => []) (fun _ => (0 : Nat)) true).2 = 1) := by
  constructor
  · intro ρ _ fuel t dur tstop wk f shot h
    exact loopA_result_of_count fuel t dur tstop wk f shot default 0 h
  · exact ⟨rfl, rfl, rfl⟩

/-- Witness for C10: a run stopped before its loop even entered performs zero
invocations and its future resolves to the default value 0. -/
theorem run_default_when_no_invocation_witness :
    (runA 1 0 100 (some 0) (fun _ => []) (fun n : Nat => n + 5) true).1 = 0 :=
  run_default_when_no_invocation.1 Nat 1 0 100 (some 0) (fun _ => []) (fun n => n + 5)
    true rfl

end AsyncTimers
